import Mathlib

/-!
Verification of the TipTap-based markdown editor component
(`TipTapEditor.tsx`) and its markdown toolbar (`MarkdownToolbar.tsx`).

The rich-text engine (TipTap/ProseMirror), the markdown parser (marked)
and the HTML-to-markdown serializer (turndown) are external libraries.
They are modelled as abstract function fields of a `Libs` record, while
every piece of logic written in the repository itself — the regex
cleanup pass of `getMarkdownFromEditor`, the conversion wrappers with
their try/catch fallbacks, and the operations of the imperative
`editorActions` handle — is embedded as executable Lean definitions.
-/

/-- Characters matched by the JavaScript regex class `\s`. -/
def jsWs (c : Char) : Bool :=
  c == ' ' || c == '\t' || c == '\n' || c == '\r' || c == '\x0b' || c == '\x0c' ||
  c == '\u00a0' || c == '\u1680' || ('\u2000' ≤ c && c ≤ '\u200a') ||
  c == '\u2028' || c == '\u2029' || c == '\u202f' || c == '\u205f' ||
  c == '\u3000' || c == '\ufeff'

/-- Matching test for the JavaScript regex `lit\s+` at the start of the
string: the string begins with the literal and the next character is
whitespace. -/
def matchesLitWs : List Char → List Char → Bool
  | [], [] => false
  | [], c :: _ => jsWs c
  | _ :: _, [] => false
  | l :: ls, c :: cs => l == c && matchesLitWs ls cs

/-- Remainder of the string after consuming the literal and the maximal
whitespace run that follows it. -/
def afterLitWs (lit s : List Char) : List Char :=
  (s.drop lit.length).dropWhile jsWs

/-- One global-replace pass of the JavaScript regex `lit\s+` by `rep`: at
each position, when the literal occurs followed by at least one
whitespace character, the literal together with the maximal whitespace
run is replaced by `rep` and scanning resumes after the match; otherwise
scanning advances one character.  The fuel argument only provides
structural termination and never runs out when it starts at the length
of the string. -/
def gsubLitWsAux (lit rep : List Char) : Nat → List Char → List Char
  | _, [] => []
  | 0, s => s
  | fuel + 1, c :: cs =>
    if matchesLitWs lit (c :: cs) then
      rep ++ gsubLitWsAux lit rep fuel (afterLitWs lit (c :: cs))
    else
      c :: gsubLitWsAux lit rep fuel cs

/-- Global replace of the JavaScript regex `lit\s+` by `rep`. -/
def gsubLitWs (lit rep s : List Char) : List Char :=
  gsubLitWsAux lit rep s.length s

/-- One global-replace pass of the JavaScript regex `\s+lit` by `rep`.
A match at some position requires the maximal whitespace run starting
there to be followed immediately by the literal (the literal does not
begin with whitespace, so backtracking inside `\s+` never helps); a
whitespace run not followed by the literal can contain no match start
and is emitted whole. -/
def gsubWsLitAux (lit rep : List Char) : Nat → List Char → List Char
  | _, [] => []
  | 0, s => s
  | fuel + 1, c :: cs =>
    if jsWs c then
      if lit.isPrefixOf ((c :: cs).dropWhile jsWs) then
        rep ++ gsubWsLitAux lit rep fuel (((c :: cs).dropWhile jsWs).drop lit.length)
      else
        (c :: cs).takeWhile jsWs ++ gsubWsLitAux lit rep fuel ((c :: cs).dropWhile jsWs)
    else
      c :: gsubWsLitAux lit rep fuel cs

/-- Global replace of the JavaScript regex `\s+lit` by `rep`. -/
def gsubWsLit (lit rep s : List Char) : List Char :=
  gsubWsLitAux lit rep s.length s

/-- The six regex substitutions of `getMarkdownFromEditor`
(TipTapEditor lines 79-84), in source order: whitespace after `**`,
whitespace before `**`, whitespace after `*`, whitespace before `*`,
whitespace after `~~`, whitespace before `~~`. -/
def cleanupMarkdown (s : List Char) : List Char :=
  gsubWsLit ['~', '~'] ['~', '~']
    (gsubLitWs ['~', '~'] ['~', '~']
      (gsubWsLit ['*'] ['*']
        (gsubLitWs ['*'] ['*']
          (gsubWsLit ['*', '*'] ['*', '*']
            (gsubLitWs ['*', '*'] ['*', '*'] s)))))

/-- Observable state of a TipTap editor instance: the HTML
serialization of its document (`editor.getHTML()`), the plain text of
the document (`editor.state.doc.textContent`) and the current selection
(`editor.state.selection`). -/
structure EditorState where
  html : String
  textContent : String
  anchor : Nat
  selFrom : Nat
  selTo : Nat
  deriving DecidableEq

/-- The external collaborators, abstracted as black-box functions: the
turndown serializer, the marked parser, and the TipTap commands and
ProseMirror document queries used by the component. -/
structure Libs where
  turndown : String → Except String String
  markedParse : String → Except String String
  setContent : EditorState → String → EditorState
  focus : EditorState → EditorState
  insertContent : EditorState → String → EditorState
  deleteRange : EditorState → Nat → Nat → EditorState
  setTextSelection : EditorState → Nat → Nat → EditorState
  textBetween : EditorState → Nat → Nat → String
  resolveStart1 : EditorState → Nat → Nat

/-- `getMarkdownFromEditor` (TipTapEditor lines 70-91): serialize the
document to HTML, convert to markdown with turndown, then run the six
cleanup substitutions; when the conversion throws, fall back to the
plain-text content of the document. -/
def getMarkdownFromEditor (L : Libs) (editor : Option EditorState) : String :=
  match editor with
  | none => ""
  | some e =>
    match L.turndown e.html with
    | Except.ok md => String.mk (cleanupMarkdown md.data)
    | Except.error _ => e.textContent

/-- `setMarkdownToEditor` (TipTapEditor lines 94-105): parse the
markdown to HTML with marked and hand the HTML to the editor; when the
parse throws, fall back to setting the raw markdown string as the
content. -/
def setMarkdownToEditor (L : Libs) (editor : Option EditorState) (markdown : String) :
    Option EditorState :=
  match editor with
  | none => none
  | some e =>
    match L.markedParse markdown with
    | Except.ok html => some (L.setContent e html)
    | Except.error _ => some (L.setContent e markdown)

/-- JavaScript `String.split` on the newline character. -/
def splitNl : List Char → List (List Char)
  | [] => [[]]
  | c :: cs =>
    if c == '\n' then [] :: splitNl cs
    else
      match splitNl cs with
      | [] => [[c]]
      | l :: ls => (c :: l) :: ls

/-- JavaScript `Array.join` with the newline character. -/
def joinNl : List (List Char) → List Char
  | [] => []
  | [l] => l
  | l :: ls => l ++ '\n' :: joinNl ls

/-- JavaScript array index assignment `a[n] = v`: writing past the end
leaves holes, which a later `join` renders exactly like the given hole
value, so the write is modelled by padding with `hole`. -/
def jsArraySet {α : Type} (l : List α) (n : Nat) (v hole : α) : List α :=
  if n < l.length then l.set n v
  else l ++ List.replicate (n - l.length) hole ++ [v]

/-- `editorActions.getContent` (TipTapEditor lines 235-237). -/
def getContent (L : Libs) (editor : Option EditorState) : String :=
  getMarkdownFromEditor L editor

/-- `editorActions.getSelectedContent` (TipTapEditor lines 238-242). -/
def getSelectedContent (L : Libs) (editor : Option EditorState) : String :=
  match editor with
  | none => ""
  | some e => L.textBetween e e.selFrom e.selTo

/-- `editorActions.getCursorPosition` (TipTapEditor lines 243-246). -/
def getCursorPosition (editor : Option EditorState) : Nat :=
  match editor with
  | none => 0
  | some e => e.anchor

/-- `editorActions.getCursorLineNumber` (TipTapEditor lines 252-257):
resolve the selection anchor in the document tree and return the start
of its depth-1 ancestor, minus one. -/
def getCursorLineNumber (L : Libs) (editor : Option EditorState) : Int :=
  match editor with
  | none => 0
  | some e => (L.resolveStart1 e e.anchor : Int) - 1

/-- `editorActions.getLine` (TipTapEditor lines 258-263): re-derive the
whole markdown text, split it on newlines and index into the result,
with an empty-string default. -/
def getLine (L : Libs) (editor : Option EditorState) (lineNumber : Nat) : String :=
  match editor with
  | none => ""
  | some _ =>
    String.mk ((splitNl (getMarkdownFromEditor L editor).data).getD lineNumber [])

/-- `editorActions.setLine` (TipTapEditor lines 264-271): re-derive the
whole markdown text, split it, assign the indexed entry, rejoin with
newlines, re-import the joined text, then focus. -/
def setLine (L : Libs) (editor : Option EditorState) (lineNumber : Nat) (text : String) :
    Option EditorState :=
  match editor with
  | none => none
  | some _ =>
    let lines := splitNl (getMarkdownFromEditor L editor).data
    Option.map L.focus
      (setMarkdownToEditor L editor
        (String.mk (joinNl (jsArraySet lines lineNumber text.data []))))

/-- `editorActions.focus` (TipTapEditor lines 213-215). -/
def focusAction (L : Libs) (editor : Option EditorState) : Option EditorState :=
  Option.map L.focus editor

/-- `editorActions.scrollToCursor` (TipTapEditor lines 216-219): TipTap
scrolls automatically, so the action only focuses. -/
def scrollToCursor (L : Libs) (editor : Option EditorState) : Option EditorState :=
  Option.map L.focus editor

/-- `editorActions.insertText` (TipTapEditor lines 220-224). -/
def insertText (L : Libs) (editor : Option EditorState) (content pre suf : String) :
    Option EditorState :=
  match editor with
  | none => none
  | some e => some (L.insertContent e (pre ++ content ++ suf))

/-- `editorActions.removeText` (TipTapEditor lines 225-231): the index
arguments are ignored and the current selection range is deleted. -/
def removeText (L : Libs) (editor : Option EditorState) (_start _len : Nat) :
    Option EditorState :=
  match editor with
  | none => none
  | some e => some (L.deleteRange e e.selFrom e.selTo)

/-- `editorActions.setContent` (TipTapEditor lines 232-234). -/
def setContentAction (L : Libs) (editor : Option EditorState) (text : String) :
    Option EditorState :=
  setMarkdownToEditor L editor text

/-- `editorActions.setCursorPosition` (TipTapEditor lines 247-251): a
missing end position defaults to the start position. -/
def setCursorPosition (L : Libs) (editor : Option EditorState) (startPos : Nat)
    (endPos : Option Nat) : Option EditorState :=
  match editor with
  | none => none
  | some e => some (L.setTextSelection e startPos (endPos.getD startPos))

/-- The `onUpdate` handler of `useEditor` (TipTapEditor lines 147-150),
modelled as the sequence of invocations of the content-change callback
it performs on one document change event: a single call carrying the
exported markdown. -/
def onUpdateEmissions (L : Libs) (e : EditorState) : List String :=
  [getMarkdownFromEditor L (some e)]

/-- Boolean test that the first list is an initial segment of the
second. -/
def beginsWith : List Char → List Char → Bool
  | [], _ => true
  | _ :: _, [] => false
  | a :: as, b :: bs => a == b && beginsWith as bs

/-- Boolean substring test on character lists. -/
def hasSub (needle : List Char) : List Char → Bool
  | [] => needle.isEmpty
  | c :: cs => beginsWith needle (c :: cs) || hasSub needle cs

/-- Modelled from the spec: toggling of the bold mark over the selected
range `[a, b)` of the engine's document, counting positions from `i`.
The engine's document tree and its mark operations belong to the
external rich-text framework and are not part of the sources; the
document is restricted to inline text where each character carries a
bold flag. -/
def flipBoldFrom (a b i : Nat) : List (Char × Bool) → List (Char × Bool)
  | [] => []
  | p :: ps => (if a ≤ i ∧ i < b then (p.1, !p.2) else p) :: flipBoldFrom a b (i + 1) ps

/-- Modelled from the spec: the engine's toggle-bold structural command
(the engine is an external collaborator whose code is not in the
sources).  The spec says of it only that it toggles bold on the current
selection and that toggling twice leaves content unchanged, so it is
modelled as toggling the bold mark at every position of the selected
range. -/
def toggleBold (d : List (Char × Bool)) (a b : Nat) : List (Char × Bool) :=
  flipBoldFrom a b 0 d

/-- The bold button of the markdown toolbar dispatches the engine's
toggle-bold command on the current selection (MarkdownToolbar lines
67-72). -/
def toolbarToggleBold (d : List (Char × Bool)) (a b : Nat) : List (Char × Bool) :=
  toggleBold d a b

/-- A blank editor state. -/
def st0 : EditorState :=
  { html := "", textContent := "", anchor := 0, selFrom := 0, selTo := 0 }

/-- Reference instantiation of the external libraries in which every
engine command leaves the state unchanged up to the stored HTML and
both conversions are the identity. -/
def idLibs : Libs :=
  { turndown := fun h => Except.ok h
    markedParse := fun m => Except.ok m
    setContent := fun e h => { e with html := h }
    focus := fun e => e
    insertContent := fun e _ => e
    deleteRange := fun e _ _ => e
    setTextSelection := fun e a b => { e with anchor := a, selFrom := a, selTo := b }
    textBetween := fun _ _ _ => ""
    resolveStart1 := fun _ _ => 1 }

/-- Libraries whose serializer emits a markdown string with whitespace
next to a bold delimiter inside a code span. -/
def cLibs1 : Libs :=
  { idLibs with turndown := fun _ => Except.ok ("`** x`") }

/-- Libraries whose serializer emits a fixed two-line markdown text. -/
def cLibs2 : Libs :=
  { idLibs with turndown := fun _ => Except.ok ("ab\ncd") }

/-- Libraries in which both conversions throw. -/
def cLibs3 : Libs :=
  { idLibs with
    turndown := fun _ => Except.error ("boom")
    markedParse := fun _ => Except.error ("bad") }

/-- Libraries reproducing the observed behavior of marked and turndown
on the input `**bold** text`: the parser produces the paragraph HTML
and the serializer maps that HTML back to the original markdown. -/
def rtLibs : Libs :=
  { idLibs with
    markedParse := fun md =>
      if md = ("**bold** text") then Except.ok ("<p><strong>bold</strong> text</p>")
      else Except.ok md
    turndown := fun h =>
      if h = ("<p><strong>bold</strong> text</p>") then Except.ok ("**bold** text")
      else Except.ok h }

/-- The editor state reached by importing `**bold** text` through
`rtLibs`. -/
def rtSt1 : EditorState :=
  { st0 with html := "<p><strong>bold</strong> text</p>" }

/-- Libraries whose serializer emits a three-line markdown text while
the document-tree position query places the cursor's depth-1 ancestor
at position 5, as for a cursor inside the second paragraph of a
two-paragraph ProseMirror document. -/
def cexLibs : Libs :=
  { idLibs with
    turndown := fun _ => Except.ok ("ab\n\ncd")
    resolveStart1 := fun _ _ => 5 }

/-- An editor state with the cursor at position 5. -/
def cexSt : EditorState :=
  { st0 with anchor := 5 }

theorem flipBoldFrom_flipBoldFrom (a b i : Nat) (l : List (Char × Bool)) :
    flipBoldFrom a b i (flipBoldFrom a b i l) = l := by
  induction l generalizing i with
  | nil => rfl
  | cons p ps ih =>
    obtain ⟨c, m⟩ := p
    simp only [flipBoldFrom]
    by_cases hc : a ≤ i ∧ i < b
    · simp [hc, ih]
    · simp [hc, ih]

/-- C1: for every serializer output, `getMarkdownFromEditor` returns
exactly that output after the six whitespace-deleting substitutions, in
source order (after `**`, before `**`, after `*`, before `*`, after
`~~`, before `~~`), applied to the whole text with no exclusion of
code-span or link contents. -/
theorem getMarkdownFromEditor_cleanup (L : Libs) (e : EditorState) (md : String)
    (h : L.turndown e.html = Except.ok md) :
    getMarkdownFromEditor L (some e) =
      String.mk (gsubWsLit ['~', '~'] ['~', '~'] (gsubLitWs ['~', '~'] ['~', '~']
        (gsubWsLit ['*'] ['*'] (gsubLitWs ['*'] ['*']
          (gsubWsLit ['*', '*'] ['*', '*'] (gsubLitWs ['*', '*'] ['*', '*'] md.data)))))) := by
  simp [getMarkdownFromEditor, h, cleanupMarkdown]

/-- Witness for C1 on a serializer output whose whitespace sits inside
a code span: the substitutions strip it anyway. -/
theorem getMarkdownFromEditor_cleanup_witness :
    cLibs1.turndown st0.html = Except.ok ("`** x`") ∧
    getMarkdownFromEditor cLibs1 (some st0) =
      String.mk (gsubWsLit ['~', '~'] ['~', '~'] (gsubLitWs ['~', '~'] ['~', '~']
        (gsubWsLit ['*'] ['*'] (gsubLitWs ['*'] ['*']
          (gsubWsLit ['*', '*'] ['*', '*']
            (gsubLitWs ['*', '*'] ['*', '*'] ("`** x`" : String).data)))))) :=
  ⟨rfl, getMarkdownFromEditor_cleanup cLibs1 st0 ("`** x`") rfl⟩

/-- C2: `getLine` re-derives the whole markdown text through the export
pipeline, splits it on newlines and returns the indexed line, and
`setLine` re-derives the same split, replaces the indexed line, rejoins
with newlines and re-imports the entire joined text (then focuses). -/
theorem getLine_setLine_reconstruct (L : Libs) (e : EditorState) (n : Nat) (text : String)
    (h : n < (splitNl (getMarkdownFromEditor L (some e)).data).length) :
    getLine L (some e) n =
      String.mk ((splitNl (getMarkdownFromEditor L (some e)).data).getD n []) ∧
    setLine L (some e) n text =
      Option.map L.focus (setMarkdownToEditor L (some e)
        (String.mk (joinNl
          ((splitNl (getMarkdownFromEditor L (some e)).data).set n text.data)))) := by
  constructor
  · rfl
  · simp [setLine, jsArraySet, h]

/-- Witness for C2 on a two-line document. -/
theorem getLine_setLine_reconstruct_witness :
    1 < (splitNl (getMarkdownFromEditor cLibs2 (some st0)).data).length ∧
    (getLine cLibs2 (some st0) 1 =
      String.mk ((splitNl (getMarkdownFromEditor cLibs2 (some st0)).data).getD 1 []) ∧
    setLine cLibs2 (some st0) 1 ("xy") =
      Option.map cLibs2.focus (setMarkdownToEditor cLibs2 (some st0)
        (String.mk (joinNl
          ((splitNl (getMarkdownFromEditor cLibs2 (some st0)).data).set 1 ("xy" : String).data))))) :=
  ⟨by decide, getLine_setLine_reconstruct cLibs2 st0 1 ("xy") (by decide)⟩

/-- C3: when the HTML-to-markdown conversion throws, the export returns
the document's plain text; when the markdown-to-HTML conversion throws,
the raw markdown string is set as the content; both results are plain
values, so no error reaches the caller as a structured condition. -/
theorem conversion_fallbacks (L : Libs) (e : EditorState) (md m1 m2 : String)
    (h1 : L.turndown e.html = Except.error m1)
    (h2 : L.markedParse md = Except.error m2) :
    getMarkdownFromEditor L (some e) = e.textContent ∧
    setMarkdownToEditor L (some e) md = some (L.setContent e md) := by
  constructor
  · simp [getMarkdownFromEditor, h1]
  · simp [setMarkdownToEditor, h2]

/-- Witness for C3 with both conversions throwing. -/
theorem conversion_fallbacks_witness :
    cLibs3.turndown st0.html = Except.error ("boom") ∧
    cLibs3.markedParse ("x") = Except.error ("bad") ∧
    (getMarkdownFromEditor cLibs3 (some st0) = st0.textContent ∧
      setMarkdownToEditor cLibs3 (some st0) ("x") = some (cLibs3.setContent st0 ("x"))) :=
  ⟨rfl, rfl, conversion_fallbacks cLibs3 st0 ("x") ("boom") ("bad") rfl rfl⟩

/-- C4: the input `**bold** text` is not reproduced by an import/export
cycle even when the external libraries round-trip it exactly, because
the whitespace-normalizing substitutions run in the export direction
only and delete the space after the closing bold delimiter. -/
theorem importExport_not_idempotent (L : Libs) (e0 e1 : EditorState)
    (_himp : setMarkdownToEditor L (some e0) ("**bold** text") = some e1)
    (hser : L.turndown e1.html = Except.ok ("**bold** text")) :
    getMarkdownFromEditor L (some e1) ≠ ("**bold** text") := by
  simp only [getMarkdownFromEditor, hser]
  decide

/-- Witness for C4 through the reference round-tripping libraries. -/
theorem importExport_not_idempotent_witness :
    setMarkdownToEditor rtLibs (some st0) ("**bold** text") = some rtSt1 ∧
    rtLibs.turndown rtSt1.html = Except.ok ("**bold** text") ∧
    getMarkdownFromEditor rtLibs (some rtSt1) ≠ ("**bold** text") :=
  ⟨by decide, rfl,
    importExport_not_idempotent rtLibs st0 rtSt1 (by decide) rfl⟩

/-- C5 counterexample: the cursor-line accessor returns 4 on a document
whose re-derived markdown has only three lines, so its result is not
the index of any line of the split markdown text — it is computed from
the framework's coordinate space, not by re-deriving and splitting the
markdown. -/
theorem getCursorLineNumber_not_from_split :
    getCursorLineNumber cexLibs (some cexSt) = 4 ∧
    (splitNl (getMarkdownFromEditor cexLibs (some cexSt)).data).length = 3 ∧
    ¬ getCursorLineNumber cexLibs (some cexSt) <
        ((splitNl (getMarkdownFromEditor cexLibs (some cexSt)).data).length : Int) :=
  ⟨by decide, by decide, by decide⟩

/-- C5 (amended): the cursor-line accessor computes its result in the
framework's internal coordinate space, as the start position of the
depth-1 ancestor of the resolved anchor minus one, and depends on the
libraries only through that position query, never through the markdown
derivation. -/
theorem getCursorLineNumber_internal_coords (L1 L2 : Libs) (e : EditorState)
    (h : L1.resolveStart1 = L2.resolveStart1) :
    getCursorLineNumber L1 (some e) = ((L1.resolveStart1 e e.anchor : Int) - 1) ∧
    getCursorLineNumber L1 (some e) = getCursorLineNumber L2 (some e) := by
  constructor
  · rfl
  · simp [getCursorLineNumber, h]

/-- Witness for the amended C5. -/
theorem getCursorLineNumber_internal_coords_witness :
    idLibs.resolveStart1 = idLibs.resolveStart1 ∧
    (getCursorLineNumber idLibs (some st0) = ((idLibs.resolveStart1 st0 st0.anchor : Int) - 1) ∧
      getCursorLineNumber idLibs (some st0) = getCursorLineNumber idLibs (some st0)) :=
  ⟨rfl, getCursorLineNumber_internal_coords idLibs idLibs st0 rfl⟩

/-- C6: after importing `**bold** text` and exporting without any edit,
the exported markdown still contains the substring `**bold**`, provided
the external libraries round-trip the text exactly (the cleanup pass
deletes the following space but keeps the bold span intact). -/
theorem roundtrip_keeps_bold (L : Libs) (e0 e1 : EditorState)
    (_himp : setMarkdownToEditor L (some e0) ("**bold** text") = some e1)
    (hser : L.turndown e1.html = Except.ok ("**bold** text")) :
    hasSub ("**bold**" : String).data (getMarkdownFromEditor L (some e1)).data = true := by
  simp only [getMarkdownFromEditor, hser]
  decide

/-- Witness for C6 through the reference round-tripping libraries. -/
theorem roundtrip_keeps_bold_witness :
    setMarkdownToEditor rtLibs (some st0) ("**bold** text") = some rtSt1 ∧
    rtLibs.turndown rtSt1.html = Except.ok ("**bold** text") ∧
    hasSub ("**bold**" : String).data (getMarkdownFromEditor rtLibs (some rtSt1)).data = true :=
  ⟨by decide, rfl, roundtrip_keeps_bold rtLibs st0 rtSt1 (by decide) rfl⟩

/-- C7: for every document state and every selection, applying the
toolbar's toggle-bold command twice in succession leaves the document
content unchanged — toggle bold is an involution on the document. -/
theorem toolbarToggleBold_involution (d : List (Char × Bool)) (a b : Nat) :
    toolbarToggleBold (toolbarToggleBold d a b) a b = d :=
  flipBoldFrom_flipBoldFrom a b 0 d

/-- C8: on a document change event the `onUpdate` handler invokes the
content-change callback exactly once, with the markdown produced by the
export pipeline on the current document. -/
theorem onUpdate_emits_once (L : Libs) (e : EditorState) :
    onUpdateEmissions L e = [getMarkdownFromEditor L (some e)] ∧
    (onUpdateEmissions L e).length = 1 :=
  ⟨rfl, rfl⟩

/-- C9: with a null editor every handle operation is total and benign:
the accessors return the empty string or zero and the mutators change
nothing. -/
theorem nullEditor_benign (L : Libs) (n sp a k : Nat) (text content pre suf : String)
    (ep : Option Nat) :
    getContent L none = "" ∧
    getLine L none n = "" ∧
    getSelectedContent L none = "" ∧
    getCursorPosition none = 0 ∧
    getCursorLineNumber L none = 0 ∧
    focusAction L none = none ∧
    scrollToCursor L none = none ∧
    insertText L none content pre suf = none ∧
    removeText L none a k = none ∧
    setContentAction L none text = none ∧
    setLine L none n text = none ∧
    setCursorPosition L none sp ep = none :=
  ⟨rfl, rfl, rfl, rfl, rfl, rfl, rfl, rfl, rfl, rfl, rfl, rfl⟩

/-- C10: for an index at or past the number of lines, `getLine` returns
the empty string, and `setLine` re-imports a text whose lines are the
original ones, then empty lines filling the gap up to the index, then
the new text at the index. -/
theorem lineOps_out_of_range (L : Libs) (e : EditorState) (n : Nat) (text : String)
    (h : (splitNl (getMarkdownFromEditor L (some e)).data).length ≤ n) :
    getLine L (some e) n = "" ∧
    setLine L (some e) n text =
      Option.map L.focus (setMarkdownToEditor L (some e)
        (String.mk (joinNl (splitNl (getMarkdownFromEditor L (some e)).data
          ++ List.replicate (n - (splitNl (getMarkdownFromEditor L (some e)).data).length) []
          ++ [text.data])))) := by
  constructor
  · show String.mk ((splitNl (getMarkdownFromEditor L (some e)).data).getD n []) = ""
    rw [List.getD_eq_default _ _ h]
  · simp [setLine, jsArraySet, Nat.not_lt.mpr h]

/-- Witness for C10: index 3 on a two-line document. -/
theorem lineOps_out_of_range_witness :
    (splitNl (getMarkdownFromEditor cLibs2 (some st0)).data).length ≤ 3 ∧
    (getLine cLibs2 (some st0) 3 = "" ∧
    setLine cLibs2 (some st0) 3 ("x") =
      Option.map cLibs2.focus (setMarkdownToEditor cLibs2 (some st0)
        (String.mk (joinNl (splitNl (getMarkdownFromEditor cLibs2 (some st0)).data
          ++ List.replicate (3 - (splitNl (getMarkdownFromEditor cLibs2 (some st0)).data).length) []
          ++ [("x" : String).data]))))) :=
  ⟨by decide, lineOps_out_of_range cLibs2 st0 3 ("x") (by decide)⟩
